import Mathlib

/-!
Verification of `omen-rgb-gui.py`, a single-file PyQt application that lets a
user pick a keyboard RGB zone and a color, persists the last choice in an INI
settings file, and applies the choice by running a privileged helper script via
`pkexec`.

The embedding below translates the program state (`OmenRgbGui`) into an
explicit `GuiState`, the subprocess call into an environment value
(`ProcResult`) plus an observable list of issued command vectors, and the
on-disk INI file into an abstract `ConfigFile` value.  PyQt's `QColor` is
modelled by an RGB triple with a validity flag, covering exactly the
constructor inputs the program can produce (`#RGB`, `#RRGGBB`, and the color
names the program uses); `QColor.name()` is the lowercase `#rrggbb` string.
-/

/-- Model of PyQt `QColor` as used by the program: a validity flag plus RGB
components (each in `0..255` for every color the constructors produce). -/
structure QColor where
  valid : Bool
  r : Nat
  g : Nat
  b : Nat
deriving Repr, DecidableEq

/-- The invalid `QColor()` value. -/
def QColor.invalid : QColor := ⟨false, 0, 0, 0⟩

/-- Hexadecimal value of a character, `none` when it is not a hex digit.
Embeds the character class `[0-9a-fA-F]` of the regex in
`query_initial_color_from_sysfs`. -/
def hexVal (c : Char) : Option Nat :=
  if '0' ≤ c ∧ c ≤ '9' then some (c.toNat - '0'.toNat)
  else if 'a' ≤ c ∧ c ≤ 'f' then some (c.toNat - 'a'.toNat + 10)
  else if 'A' ≤ c ∧ c ≤ 'F' then some (c.toNat - 'A'.toNat + 10)
  else none

/-- Whether a character is an ASCII hexadecimal digit. -/
def isHexDigit (c : Char) : Bool := (hexVal c).isSome

/-- `QColor` construction from a string, as the program uses it: `#RRGGBB`
(any case), `#RGB`, or one of the color names the program passes
(`white`, `red`, `lime`, `blue`, `black`); anything else is invalid. -/
def QColor.fromString (s : String) : QColor :=
  match s.toList with
  | '#' :: [c1, c2, c3, c4, c5, c6] =>
    match hexVal c1, hexVal c2, hexVal c3, hexVal c4, hexVal c5, hexVal c6 with
    | some v1, some v2, some v3, some v4, some v5, some v6 =>
      ⟨true, 16 * v1 + v2, 16 * v3 + v4, 16 * v5 + v6⟩
    | _, _, _, _, _, _ => QColor.invalid
  | '#' :: [c1, c2, c3] =>
    match hexVal c1, hexVal c2, hexVal c3 with
    | some v1, some v2, some v3 => ⟨true, 17 * v1, 17 * v2, 17 * v3⟩
    | _, _, _ => QColor.invalid
  | _ =>
    if s = "white" then ⟨true, 255, 255, 255⟩
    else if s = "red" then ⟨true, 255, 0, 0⟩
    else if s = "lime" then ⟨true, 0, 255, 0⟩
    else if s = "blue" then ⟨true, 0, 0, 255⟩
    else if s = "black" then ⟨true, 0, 0, 0⟩
    else QColor.invalid

/-- The two lowercase hex digits of a byte, used by `QColor.name`. -/
def hexBytePair (n : Nat) : List Char :=
  [Nat.digitChar (n / 16 % 16), Nat.digitChar (n % 16)]

/-- `QColor.name()`: the `#rrggbb` lowercase-hexadecimal name of a color. -/
def QColor.name (c : QColor) : String :=
  String.mk ('#' :: (hexBytePair c.r ++ hexBytePair c.g ++ hexBytePair c.b))

/-- Python `str.upper()` restricted to ASCII, as a character-wise map. -/
def pyUpper (s : String) : String := String.mk (s.toList.map Char.toUpper)

/-- Python `str.strip()`: remove leading and trailing whitespace. -/
def pyStrip (s : String) : String :=
  String.mk (((s.toList.dropWhile Char.isWhitespace).reverse.dropWhile
    Char.isWhitespace).reverse)

/-- Python `s[1:]`: drop the first character. -/
def pyDropFirst (s : String) : String := String.mk (s.toList.drop 1)

/-- Python `str.capitalize()` restricted to ASCII. -/
def pyCapitalize (s : String) : String :=
  match s.toList with
  | [] => ""
  | c :: rest => String.mk (Char.toUpper c :: rest.map Char.toLower)

/-- Python `str.isdigit()` restricted to ASCII. -/
def pyIsDigit (s : String) : Bool :=
  !s.toList.isEmpty && s.toList.all Char.isDigit

/-- Whether the list starts with six hexadecimal digits: the anchored test the
regex `([0-9a-fA-F]{6})` performs at one position. -/
def startsWithHex6 (l : List Char) : Bool :=
  (l.take 6).length == 6 && (l.take 6).all isHexDigit

/-- `re.search(r'([0-9a-fA-F]{6})', ·)`: the leftmost run of six hexadecimal
digits, scanning start positions left to right. -/
def findHex6 (l : List Char) : Option (List Char) :=
  match l with
  | [] => none
  | _ :: rest => if startsWithHex6 l then some (l.take 6) else findHex6 rest

/-- The abstract content of the INI settings file: a list of sections, each a
list of key-value pairs (`configparser` preserves insertion order). -/
structure ConfigFile where
  sections : List (String × List (String × String))
deriving Repr, DecidableEq

/-- Look up a section by name in a config file. -/
def ConfigFile.getSection (cfg : ConfigFile) (sec : String) :
    Option (List (String × String)) :=
  (cfg.sections.find? (fun p => p.1 == sec)).map (·.2)

/-- `config[sec].get(key)`: look up a key inside a section. -/
def ConfigFile.get (cfg : ConfigFile) (sec key : String) : Option String :=
  (cfg.getSection sec).bind (fun kvs => (kvs.find? (fun p => p.1 == key)).map (·.2))

/-- Kind of a Qt message box the program pops up. -/
inductive DialogKind where
  | warning
  | critical
deriving Repr, DecidableEq

/-- A message box shown to the user: kind, title and message text. -/
structure Dialog where
  kind : DialogKind
  title : String
  message : String
deriving Repr, DecidableEq

/-- Outcome of the `subprocess.run(command, check=True, ..., timeout=20)` call
in `apply_settings`: the process completed with an exit code and captured
output, or `pkexec` was missing from PATH (`FileNotFoundError`), or the call
timed out (`TimeoutExpired`). -/
inductive ProcResult where
  | completed (exitCode : Int) (stdout stderr : String)
  | pkexecNotFound
  | timeout
deriving Repr, DecidableEq

/-- The mutable state of the `OmenRgbGui` widget, together with the on-disk
settings file and a counter of sysfs read attempts (observability of
`query_initial_color_from_sysfs`).  The color-preview frame is pure display
and is not modelled. -/
structure GuiState where
  current_color : QColor
  target_zone : String
  zone_buttons : List (String × Bool)
  status_label : String
  config_file : Option ConfigFile
  sysfs_reads : Nat
deriving Repr, DecidableEq

/-- `HELPER_SCRIPT_PATH` from the program. -/
def HELPER_SCRIPT_PATH : String := "/usr/local/bin/omen-rgb-helper.sh"

/-- `button_definitions` from `init_ui`:
(Display Text, Zone ID, Grid Row, Grid Col, Row Span, Col Span). -/
def button_definitions : List (String × String × Nat × Nat × Nat × Nat) :=
  [("Left", "2", 1, 0, 1, 1),
   ("Middle", "1", 1, 1, 1, 1),
   ("Right", "0", 1, 2, 1, 1),
   ("WSAD", "3", 2, 0, 1, 1),
   ("All Zones", "all", 2, 1, 1, 2)]

/-- `update_status_label`: format the status line from zone and color. -/
def update_status_label (s : GuiState) : GuiState :=
  let color_name :=
    if s.current_color.valid then pyUpper s.current_color.name else "INVALID"
  let zone_display_name :=
    if s.target_zone ≠ "all" then pyCapitalize s.target_zone else "All"
  let zone_display_name :=
    if pyIsDigit s.target_zone then "Zone " ++ s.target_zone else zone_display_name
  { s with status_label := "Target: " ++ zone_display_name ++ ", Color: " ++ color_name }

/-- `query_initial_color_from_sysfs`: read the zone-0 sysfs file (its content
is `some c` when readable, `none` on `FileNotFoundError`, `PermissionError` or
any other exception), search the stripped content for a six-hex-digit run, and
install that color, falling back to white everywhere else. -/
def query_initial_color_from_sysfs (sysfs : Option String) (s : GuiState) :
    GuiState :=
  let s := { s with sysfs_reads := s.sysfs_reads + 1 }
  match sysfs with
  | some raw =>
    let content := pyStrip raw
    match findHex6 content.toList with
    | some hex_color =>
      let parsed_qcolor := QColor.fromString (String.mk ('#' :: hex_color))
      if parsed_qcolor.valid then { s with current_color := parsed_qcolor }
      else { s with current_color := QColor.fromString "white" }
    | none => { s with current_color := QColor.fromString "white" }
  | none => { s with current_color := QColor.fromString "white" }

/-- `load_settings`: read the settings file if it exists; install the saved
color when it parses to a valid `QColor`, take the saved zone string verbatim,
and fall back to the sysfs query when no valid color was loaded. -/
def load_settings (sysfs : Option String) (s : GuiState) : GuiState :=
  match s.config_file with
  | none => query_initial_color_from_sysfs sysfs s
  | some config =>
    match config.getSection "Settings" with
    | none => query_initial_color_from_sysfs sysfs s
    | some settings =>
      let color_hex_from_config := config.get "Settings" "last_color_hex"
      let (current_color, loaded_color_from_config) :=
        match color_hex_from_config with
        | some hexstr =>
          if hexstr ≠ "" then
            let temp_color := QColor.fromString hexstr
            if temp_color.valid then (temp_color, true) else (s.current_color, false)
          else (s.current_color, false)
        | none => (s.current_color, false)
      let target_zone :=
        ((settings.find? (fun p => p.1 == "last_target_zone")).map (·.2)).getD
          s.target_zone
      let s1 := { s with current_color := current_color, target_zone := target_zone }
      if loaded_color_from_config then s1 else query_initial_color_from_sysfs sysfs s1

/-- `save_settings`: write the settings file with a single `Settings` section
holding the current color name and the target zone. -/
def save_settings (s : GuiState) : GuiState :=
  { s with config_file := some ⟨[("Settings",
      [("last_color_hex", s.current_color.name),
       ("last_target_zone", s.target_zone)])]⟩ }

/-- `init_ui`: create the five zone buttons (all unchecked) and the initial
status label. -/
def init_ui (s : GuiState) : GuiState :=
  { s with
    zone_buttons := button_definitions.map (fun bd => (bd.2.1, false)),
    status_label := "Ready. Select zone and color." }

/-- Set the checked flag of the button with the given zone id. -/
def setChecked (buttons : List (String × Bool)) (zone_id : String) (v : Bool) :
    List (String × Bool) :=
  buttons.map (fun p => if p.1 == zone_id then (p.1, v) else p)

/-- `update_ui_from_loaded_settings`: check the button of the loaded zone, or
reset the zone to `"all"` (checking the All Zones button) when no button
matches it, then refresh the status label. -/
def update_ui_from_loaded_settings (s : GuiState) : GuiState :=
  let s1 :=
    if s.zone_buttons.any (fun p => p.1 == s.target_zone) then
      { s with zone_buttons := setChecked s.zone_buttons s.target_zone true }
    else if s.zone_buttons.any (fun p => p.1 == "all") then
      { s with target_zone := "all",
               zone_buttons := setChecked s.zone_buttons "all" true }
    else s
  update_status_label s1

/-- `set_current_color`: install the color and refresh the status label when
it is valid; leave the state unchanged otherwise. -/
def set_current_color (color : QColor) (s : GuiState) : GuiState :=
  if color.valid then update_status_label { s with current_color := color } else s

/-- `select_zone`: set the target zone, check exactly the matching button, and
refresh the status label. -/
def select_zone (zone_id : String) (s : GuiState) : GuiState :=
  update_status_label
    { s with
      target_zone := zone_id,
      zone_buttons := s.zone_buttons.map (fun p => (p.1, p.1 == zone_id)) }

/-- `show_color_dialog`: the dialog returns `picked` (an invalid color when
the user cancels); a valid pick is installed via `set_current_color`. -/
def show_color_dialog (picked : QColor) (s : GuiState) : GuiState :=
  if picked.valid then set_current_color picked s else s

/-- `OmenRgbGui.__init__`: default white color and `"all"` zone, then
`load_settings`, `init_ui` and `update_ui_from_loaded_settings`. -/
def initState (cfg : Option ConfigFile) (sysfs : Option String) : GuiState :=
  let s0 : GuiState :=
    { current_color := QColor.fromString "white",
      target_zone := "all",
      zone_buttons := [],
      status_label := "",
      config_file := cfg,
      sysfs_reads := 0 }
  update_ui_from_loaded_settings (init_ui (load_settings sysfs s0))

/-- Result of one `apply_settings` invocation: the new state, the argument
vectors handed to `subprocess.run` (in order), and the message boxes shown. -/
structure ApplyResult where
  state : GuiState
  commands : List (List String)
  dialogs : List Dialog
deriving Repr, DecidableEq

/-- `apply_settings`: refuse an invalid color; otherwise run
`["pkexec", HELPER_SCRIPT_PATH, zone, COLORHEX]` once via `subprocess.run`
(outcome given by `env`), saving the settings only on a zero exit status and
reporting every failure through the status label and a message box. -/
def apply_settings (env : ProcResult) (s : GuiState) : ApplyResult :=
  if !s.current_color.valid then
    { state := { s with status_label := "Error: Invalid color selected." },
      commands := [],
      dialogs := [⟨DialogKind.warning, "Invalid Color",
        "Cannot apply an invalid color. Please choose a valid color first."⟩] }
  else
    let color_hex := pyUpper (pyDropFirst s.current_color.name)
    let zone_id_str := s.target_zone
    let s0 := { s with status_label :=
      "Applying " ++ color_hex ++ " to zone \x27" ++ zone_id_str ++ "\x27..." }
    let command := ["pkexec", HELPER_SCRIPT_PATH, zone_id_str, color_hex]
    match env with
    | ProcResult.completed 0 _stdout stderr =>
      let s1 := save_settings s0
      let success_msg := "Successfully applied " ++ color_hex ++ " to zone \x27"
        ++ zone_id_str ++ "\x27. Settings saved."
      let success_msg :=
        if stderr ≠ "" then success_msg ++ " (Helper warnings in console)"
        else success_msg
      { state := { s1 with status_label := success_msg },
        commands := [command],
        dialogs := [] }
    | ProcResult.completed returncode stdout stderr =>
      let error_msg_detail := if stderr ≠ "" then pyStrip stderr else pyStrip stdout
      let error_msg_detail :=
        if error_msg_detail = "" then "Unknown error from helper script or pkexec."
        else error_msg_detail
      let full_error_msg := "Error applying settings (code " ++ toString returncode
        ++ ").\n"
      let full_error_msg := full_error_msg ++
        (if returncode = 127 then
          "pkexec: Authorization failed, policy issue, or helper script not found/executable."
        else if returncode = 126 then
          "pkexec: Authorization cancelled by user."
        else
          "Helper/pkexec reported: " ++ error_msg_detail)
      { state := { s0 with status_label :=
          "Error applying settings. Check console for details." },
        commands := [command],
        dialogs := [⟨DialogKind.warning, "Apply Error", full_error_msg⟩] }
    | ProcResult.pkexecNotFound =>
      { state := { s0 with status_label := "Critical Error: pkexec missing." },
        commands := [command],
        dialogs := [⟨DialogKind.critical, "Startup Error",
          "Error: \x27pkexec\x27 command not found. Is Polkit (policykit-1) installed and in PATH?"⟩] }
    | ProcResult.timeout =>
      { state := { s0 with status_label := "Timeout Error. Check console for details." },
        commands := [command],
        dialogs := [⟨DialogKind.warning, "Timeout Error",
          "Error: Command timed out. \nThis might happen if pkexec is waiting for a password and none is provided, or if the helper script is stuck."⟩] }

/-- A nibble's lowercase hex digit parses back to the nibble. -/
theorem hexVal_digitChar : ∀ n < 16, hexVal (Nat.digitChar n) = some n := by decide

/-- Well-formed colors: valid with all components in `0..255` (every color the
modelled constructors produce satisfies this). -/
def QColor.wf (c : QColor) : Prop :=
  c.valid = true ∧ c.r < 256 ∧ c.g < 256 ∧ c.b < 256

instance (c : QColor) : Decidable c.wf := by
  unfold QColor.wf; infer_instance

/-- Round-trip: parsing a well-formed color's `#rrggbb` name reproduces it. -/
theorem fromString_name (c : QColor) (h : c.wf) :
    QColor.fromString c.name = c := by
  obtain ⟨hv, hr, hg, hb⟩ := h
  obtain ⟨v, r, g, b⟩ := c
  dsimp only at hv hr hg hb
  cases hv
  simp only [QColor.name, QColor.fromString, hexBytePair, List.cons_append,
    List.nil_append]
  simp only [String.toList]
  rw [hexVal_digitChar (r / 16 % 16) (by omega), hexVal_digitChar (r % 16) (by omega),
    hexVal_digitChar (g / 16 % 16) (by omega), hexVal_digitChar (g % 16) (by omega),
    hexVal_digitChar (b / 16 % 16) (by omega), hexVal_digitChar (b % 16) (by omega)]
  simp only [QColor.mk.injEq]
  exact ⟨trivial, by omega, by omega, by omega⟩
theorem findHex6_eq_some_iff (l : List Char) (h : List Char) :
    findHex6 l = some h ↔
      ∃ i, startsWithHex6 (l.drop i) = true ∧ h = (l.drop i).take 6 ∧
        ∀ j, j < i → startsWithHex6 (l.drop j) = false := by
  induction l with
  | nil =>
    simp only [findHex6]
    constructor
    · intro hc; exact absurd hc (by simp)
    · rintro ⟨i, hs, -, -⟩
      simp [startsWithHex6] at hs
  | cons c rest ih =>
    rw [findHex6]
    by_cases hs : startsWithHex6 (c :: rest) = true
    · simp only [hs, if_true]
      constructor
      · intro hc
        refine ⟨0, by simpa using hs, by simpa using (Option.some_injective _ hc).symm, by omega⟩
      · rintro ⟨i, hsi, hh, hmin⟩
        rcases Nat.eq_zero_or_pos i with hi | hi
        · subst hi; simp only [List.drop_zero] at hh; rw [hh]
        · have := hmin 0 hi
          simp only [List.drop_zero] at this
          rw [hs] at this; cases this
    · have hs' : startsWithHex6 (c :: rest) = false := by
        cases hb : startsWithHex6 (c :: rest) with
        | true => exact absurd hb hs
        | false => rfl
      simp only [hs', if_neg (by simp : ¬ (false = true))]
      rw [ih]
      constructor
      · rintro ⟨i, hsi, hh, hmin⟩
        refine ⟨i + 1, by simpa using hsi, by simpa using hh, ?_⟩
        intro j hj
        cases j with
        | zero => simpa using hs'
        | succ j' =>
          have := hmin j' (by omega)
          simpa using this
      · rintro ⟨i, hsi, hh, hmin⟩
        cases i with
        | zero =>
          simp only [List.drop_zero] at hsi
          rw [hs'] at hsi; cases hsi
        | succ i' =>
          refine ⟨i', by simpa using hsi, by simpa using hh, ?_⟩
          intro j hj
          have := hmin (j + 1) (by omega)
          simpa using this

theorem findHex6_eq_none_iff (l : List Char) :
    findHex6 l = none ↔ ∀ i, startsWithHex6 (l.drop i) = false := by
  induction l with
  | nil =>
    simp only [findHex6]
    constructor
    · intro _ i; simp [startsWithHex6]
    · intro _; trivial
  | cons c rest ih =>
    rw [findHex6]
    by_cases hs : startsWithHex6 (c :: rest) = true
    · simp only [hs, if_true]
      constructor
      · intro hc; cases hc
      · intro hall
        have := hall 0
        simp only [List.drop_zero] at this
        rw [hs] at this; cases this
    · have hs' : startsWithHex6 (c :: rest) = false := by
        cases hb : startsWithHex6 (c :: rest) with
        | true => exact absurd hb hs
        | false => rfl
      simp only [hs', if_neg (by simp : ¬ (false = true))]
      rw [ih]
      constructor
      · intro hall i
        cases i with
        | zero => simpa using hs'
        | succ i' => simpa using hall i'
      · intro hall i
        have := hall (i + 1)
        simpa using this

/-- Parsing `#` followed by six hexadecimal digits yields a valid color. -/
theorem hex6_fromString_valid (h : List Char) (hlen : h.length = 6)
    (hhex : h.all isHexDigit = true) :
    (QColor.fromString (String.mk ('#' :: h))).valid = true := by
  match h, hlen with
  | [c1, c2, c3, c4, c5, c6], _ =>
    simp only [List.all_cons, List.all_nil, Bool.and_true, Bool.and_eq_true,
      isHexDigit, Option.isSome_iff_exists] at hhex
    obtain ⟨⟨v1, h1⟩, ⟨v2, h2⟩, ⟨v3, h3⟩, ⟨v4, h4⟩, ⟨v5, h5⟩, ⟨v6, h6⟩⟩ := hhex
    simp only [QColor.fromString, String.toList, h1, h2, h3, h4, h5, h6]

/-- Uppercase hexadecimal digit of a nibble (spec-side description). -/
def upperHexChar (n : Nat) : Char :=
  if n < 10 then Char.ofNat ('0'.toNat + n) else Char.ofNat ('A'.toNat + n - 10)

/-- Spec-side description of the color argument handed to the helper script:
the six-character uppercase hexadecimal RRGGBB form of the color, no `#`. -/
def specColorArg (c : QColor) : String :=
  String.mk [upperHexChar (c.r / 16), upperHexChar (c.r % 16),
             upperHexChar (c.g / 16), upperHexChar (c.g % 16),
             upperHexChar (c.b / 16), upperHexChar (c.b % 16)]

/-- Uppercasing a nibble's lowercase hex digit gives the uppercase digit. -/
theorem toUpper_digitChar : ∀ n < 16, Char.toUpper (Nat.digitChar n) = upperHexChar n := by
  decide

/-- The color argument computed by `apply_settings`
(`current_color.name()[1:].upper()`) is the spec-side uppercase RRGGBB form. -/
theorem colorArg_eq_spec (c : QColor) (h : c.wf) :
    pyUpper (pyDropFirst c.name) = specColorArg c := by
  obtain ⟨hv, hr, hg, hb⟩ := h
  simp only [QColor.name, pyDropFirst, pyUpper, String.toList, hexBytePair,
    List.cons_append, List.nil_append, List.drop_succ_cons, List.drop_zero,
    List.map_cons, List.map_nil, specColorArg]
  rw [Nat.mod_eq_of_lt (show c.r / 16 < 16 by omega),
    Nat.mod_eq_of_lt (show c.g / 16 < 16 by omega),
    Nat.mod_eq_of_lt (show c.b / 16 < 16 by omega),
    toUpper_digitChar (c.r / 16) (by omega), toUpper_digitChar (c.r % 16) (by omega),
    toUpper_digitChar (c.g / 16) (by omega), toUpper_digitChar (c.g % 16) (by omega),
    toUpper_digitChar (c.b / 16) (by omega), toUpper_digitChar (c.b % 16) (by omega)]

/-- Claim C1: whenever the current color is valid, `apply_settings` issues
exactly one subprocess invocation, with argument vector
`["pkexec", "/usr/local/bin/omen-rgb-helper.sh", zone, COLORHEX]` where `zone`
is the selected target zone and `COLORHEX` is the six-character uppercase
RRGGBB form of the current color without the leading `#`. -/
theorem spec_c1_apply_command (env : ProcResult) (s : GuiState)
    (h : s.current_color.wf) :
    (apply_settings env s).commands =
      [["pkexec", "/usr/local/bin/omen-rgb-helper.sh", s.target_zone,
        specColorArg s.current_color]] := by
  have hv : s.current_color.valid = true := h.1
  rw [← colorArg_eq_spec s.current_color h]
  cases env with
  | completed code out err =>
    simp only [apply_settings, hv, Bool.not_true, Bool.false_eq_true, if_false,
      HELPER_SCRIPT_PATH]
    split <;> rfl
  | pkexecNotFound =>
    simp only [apply_settings, hv, Bool.not_true, Bool.false_eq_true, if_false,
      HELPER_SCRIPT_PATH]
  | timeout =>
    simp only [apply_settings, hv, Bool.not_true, Bool.false_eq_true, if_false,
      HELPER_SCRIPT_PATH]

/-- A concrete state: red color, zone `"all"`, buttons as built by `init_ui`. -/
def sampleState : GuiState :=
  { current_color := ⟨true, 255, 0, 0⟩,
    target_zone := "all",
    zone_buttons := button_definitions.map (fun bd => (bd.2.1, false)),
    status_label := "",
    config_file := none,
    sysfs_reads := 0 }

/-- Witness for C1: applying red to zone `"all"` runs exactly
`pkexec /usr/local/bin/omen-rgb-helper.sh all FF0000`. -/
theorem spec_c1_apply_command_witness :
    sampleState.current_color.wf ∧
      (apply_settings (ProcResult.completed 0 "" "") sampleState).commands =
        [["pkexec", "/usr/local/bin/omen-rgb-helper.sh", "all", "FF0000"]] :=
  ⟨by decide,
   (spec_c1_apply_command (ProcResult.completed 0 "" "") sampleState
      (by decide)).trans (by decide)⟩

/-- Claim C2: `save_settings` writes a settings file whose `Settings` section
holds exactly the two pairs `last_color_hex = current color name` and
`last_target_zone = target zone`. -/
theorem spec_c2_save_settings (s : GuiState) (h : s.current_color.valid = true) :
    ∃ cfg : ConfigFile, (save_settings s).config_file = some cfg ∧
      cfg.sections = [("Settings",
        [("last_color_hex", s.current_color.name),
         ("last_target_zone", s.target_zone)])] :=
  ⟨_, rfl, rfl⟩

/-- Witness for C2: the file saved from the sample state. -/
theorem spec_c2_save_settings_witness :
    sampleState.current_color.valid = true ∧
      ∃ cfg : ConfigFile, (save_settings sampleState).config_file = some cfg ∧
        cfg.sections = [("Settings",
          [("last_color_hex", "#ff0000"), ("last_target_zone", "all")])] := by
  refine ⟨by decide, ?_⟩
  have := spec_c2_save_settings sampleState (by decide)
  obtain ⟨cfg, h1, h2⟩ := this
  exact ⟨cfg, h1, h2.trans (by decide)⟩

/-- Loading from a file written by `save_settings` restores the saved color and
zone exactly and touches nothing else (in particular no sysfs read happens). -/
theorem load_of_saved (s t : GuiState) (sysfs : Option String)
    (hwf : s.current_color.wf)
    (hcfg : t.config_file = (save_settings s).config_file) :
    load_settings sysfs t =
      { t with current_color := s.current_color, target_zone := s.target_zone } := by
  simp only [save_settings] at hcfg
  rw [load_settings]
  rw [hcfg]
  have hname := fromString_name s.current_color hwf
  have hv := hwf.1
  have hne : s.current_color.name ≠ "" := by
    simp [QColor.name, String.ext_iff]
  simp [ConfigFile.getSection, ConfigFile.get, hne, hname, hv]

/-- Claim C3: for every well-formed color and every zone among
`0, 1, 2, 3, all`, `load_settings` run on the file written by `save_settings`
restores a current color with the same `#rrggbb` name and the same target
zone, and attempts no sysfs read. -/
theorem spec_c3_roundtrip (r g b : Nat) (zone : String) (sysfs : Option String)
    (s t : GuiState)
    (hr : r < 256) (hg : g < 256) (hb : b < 256)
    (hz : zone ∈ ["0", "1", "2", "3", "all"])
    (hcolor : s.current_color = ⟨true, r, g, b⟩)
    (hzone : s.target_zone = zone)
    (hcfg : t.config_file = (save_settings s).config_file) :
    (load_settings sysfs t).current_color.name = (⟨true, r, g, b⟩ : QColor).name ∧
      (load_settings sysfs t).target_zone = zone ∧
      (load_settings sysfs t).sysfs_reads = t.sysfs_reads := by
  have hwf : s.current_color.wf := by
    rw [hcolor]; exact ⟨rfl, hr, hg, hb⟩
  rw [load_of_saved s t sysfs hwf hcfg]
  exact ⟨by rw [hcolor], by rw [hzone], rfl⟩

/-- Witness for C3: saving red and zone `"all"` then loading restores both,
with no sysfs read. -/
theorem spec_c3_roundtrip_witness :
    (load_settings none (save_settings sampleState)).current_color.name = "#ff0000" ∧
      (load_settings none (save_settings sampleState)).target_zone = "all" ∧
      (load_settings none (save_settings sampleState)).sysfs_reads = 0 := by
  have h := spec_c3_roundtrip 255 0 0 "all" none sampleState
    (save_settings sampleState) (by decide) (by decide) (by decide) (by decide)
    rfl rfl rfl
  exact ⟨h.1.trans (by decide), h.2.1, h.2.2.trans (by decide)⟩

/-- The white color the program falls back to. -/
theorem fromString_white : QColor.fromString "white" = ⟨true, 255, 255, 255⟩ := by
  decide

/-- Claim C4: with readable sysfs content, `query_initial_color_from_sysfs`
sets the current color to `#` followed by the leftmost six-hex-digit run of
the stripped content; with no such run, or an unreadable file, it sets white. -/
theorem spec_c4_sysfs_query (s : GuiState) (raw : String) :
    ((query_initial_color_from_sysfs none s).current_color = ⟨true, 255, 255, 255⟩) ∧
    (∀ h, findHex6 (pyStrip raw).toList = some h →
      (query_initial_color_from_sysfs (some raw) s).current_color =
          QColor.fromString (String.mk ('#' :: h)) ∧
        (QColor.fromString (String.mk ('#' :: h))).valid = true ∧
        (∃ i, startsWithHex6 ((pyStrip raw).toList.drop i) = true ∧
          h = ((pyStrip raw).toList.drop i).take 6 ∧
          ∀ j, j < i → startsWithHex6 ((pyStrip raw).toList.drop j) = false)) ∧
    (findHex6 (pyStrip raw).toList = none →
      (¬ ∃ i, startsWithHex6 ((pyStrip raw).toList.drop i) = true) ∧
        (query_initial_color_from_sysfs (some raw) s).current_color =
          ⟨true, 255, 255, 255⟩) := by
  refine ⟨by simp [query_initial_color_from_sysfs, fromString_white], ?_, ?_⟩
  · intro h hfind
    obtain ⟨i, hsi, hh, hmin⟩ := (findHex6_eq_some_iff _ h).mp hfind
    have hsi' := hsi
    simp only [startsWithHex6, Bool.and_eq_true, beq_iff_eq, List.all_eq_true] at hsi'
    have hlen : h.length = 6 := by rw [hh]; exact hsi'.1
    have hall : h.all isHexDigit = true := by
      rw [hh, List.all_eq_true]; exact hsi'.2
    have hvalid := hex6_fromString_valid h hlen hall
    refine ⟨?_, hvalid, ⟨i, hsi, hh, fun j hj => hmin j hj⟩⟩
    have hfind' : findHex6 (pyStrip raw).data = some h := hfind
    simp [query_initial_color_from_sysfs, hfind', hvalid]
  · intro hnone
    constructor
    · rw [findHex6_eq_none_iff] at hnone
      rintro ⟨i, hi⟩
      rw [hnone i] at hi
      cases hi
    · have hnone' : findHex6 (pyStrip raw).data = none := hnone
      simp [query_initial_color_from_sysfs, hnone', fromString_white]

/-- Witness for C4: querying the documented example content
`RGB:aa55ff (R:170 G:85 B:255)` installs the color `#aa55ff`. -/
theorem spec_c4_sysfs_query_witness :
    (query_initial_color_from_sysfs (some "RGB:aa55ff (R:170 G:85 B:255)")
        sampleState).current_color = ⟨true, 170, 85, 255⟩ := by
  have h := (spec_c4_sysfs_query sampleState "RGB:aa55ff (R:170 G:85 B:255)").2.1
    ['a', 'a', '5', '5', 'f', 'f'] (by decide)
  exact h.1.trans (by decide)

/-- Substring containment of strings. -/
def strContains (hay needle : String) : Prop :=
  ∃ pre post, hay = pre ++ needle ++ post

/-- String append is associative (via the underlying character lists). -/
theorem strAppend_assoc (a b c : String) : a ++ b ++ c = a ++ (b ++ c) := by
  simp [String.ext_iff, String.data_append]

/-- Every string contains the empty string. -/
theorem strContains_empty_any (hay : String) : strContains hay "" :=
  ⟨hay, "", by simp [String.ext_iff, String.data_append]⟩

/-- A string contains its own suffix. -/
theorem strContains_append (pre needle : String) :
    strContains (pre ++ needle) needle :=
  ⟨pre, "", by simp [String.ext_iff, String.data_append]⟩

/-- Claim C5: on a nonzero exit status, `apply_settings` reports it: code 127
yields the authorization-failed / policy / helper-not-found message, code 126
the authorization-cancelled message, and any other nonzero code a message
containing the helper's stripped stderr (or stdout when stderr is empty); in
all cases the status label becomes an error text and one warning dialog is
shown. -/
theorem spec_c5_error_reporting (s : GuiState) (code : Int) (out err : String)
    (hcode : code ≠ 0) (hv : s.current_color.valid = true) :
    (apply_settings (ProcResult.completed code out err) s).state.status_label =
        "Error applying settings. Check console for details." ∧
      ∃ msg, (apply_settings (ProcResult.completed code out err) s).dialogs =
          [⟨DialogKind.warning, "Apply Error", msg⟩] ∧
        (code = 127 → strContains msg
          "pkexec: Authorization failed, policy issue, or helper script not found/executable.") ∧
        (code = 126 → strContains msg "pkexec: Authorization cancelled by user.") ∧
        (code ≠ 127 → code ≠ 126 →
          strContains msg (if err ≠ "" then pyStrip err else pyStrip out)) := by
  simp only [apply_settings, hv, Bool.not_true, Bool.false_eq_true, if_false]
  split
  next h1 =>
    subst h1
    refine ⟨trivial, _, rfl, fun _ => strContains_append _ _,
      fun h2 => absurd h2 (by decide), fun hn _ => absurd rfl hn⟩
  next h1 =>
    split
    next h2 =>
      subst h2
      refine ⟨trivial, _, rfl, fun h => absurd h (by decide),
        fun _ => strContains_append _ _, fun _ hn => absurd rfl hn⟩
    next h2 =>
      refine ⟨trivial, _, rfl, fun h => absurd h h1, fun h => absurd h h2,
        fun _ _ => ?_⟩
      by_cases hd : (if err ≠ "" then pyStrip err else pyStrip out) = ""
      · rw [hd]
        exact strContains_empty_any _
      · simp only [hd, if_false]
        rw [← strAppend_assoc]
        exact strContains_append _ _

/-- Witness for C5: exit code 3 with stderr `errx` produces the error status
label and a warning dialog whose message carries the stderr text. -/
theorem spec_c5_error_reporting_witness :
    (3 : Int) ≠ 0 ∧ sampleState.current_color.valid = true ∧
      ((apply_settings (ProcResult.completed 3 "" "errx") sampleState).state.status_label =
          "Error applying settings. Check console for details." ∧
        ∃ msg, (apply_settings (ProcResult.completed 3 "" "errx") sampleState).dialogs =
            [⟨DialogKind.warning, "Apply Error", msg⟩] ∧
          ((3 : Int) = 127 → strContains msg
            "pkexec: Authorization failed, policy issue, or helper script not found/executable.") ∧
          ((3 : Int) = 126 → strContains msg "pkexec: Authorization cancelled by user.") ∧
          ((3 : Int) ≠ 127 → (3 : Int) ≠ 126 →
            strContains msg (if "errx" ≠ "" then pyStrip "errx" else pyStrip ""))) :=
  ⟨by decide, by decide,
   spec_c5_error_reporting sampleState 3 "" "errx" (by decide) (by decide)⟩

/-- Claim C6: the zone buttons are Left (zone 2), Middle (zone 1), Right
(zone 0), WSAD (zone 3) and All Zones (zone `"all"`); clicking one sets the
target zone to its zone id, checks exactly that button, and unchecks every
other button. -/
theorem spec_c6_zone_selection :
    button_definitions.map (fun bd => (bd.1, bd.2.1)) =
        [("Left", "2"), ("Middle", "1"), ("Right", "0"), ("WSAD", "3"),
         ("All Zones", "all")] ∧
      ∀ zone_id s, zone_id ∈ button_definitions.map (fun bd => bd.2.1) →
        ((select_zone zone_id s).target_zone = zone_id ∧
          ∀ p ∈ (select_zone zone_id s).zone_buttons, p.2 = (p.1 == zone_id)) := by
  refine ⟨by decide, fun zone_id s _ => ⟨rfl, fun p hp => ?_⟩⟩
  simp only [select_zone, update_status_label] at hp
  obtain ⟨q, -, rfl⟩ := List.mem_map.mp hp
  rfl

/-- Witness for C6: clicking WSAD on the sample state selects zone 3 and
checks exactly the WSAD button. -/
theorem spec_c6_zone_selection_witness :
    (select_zone "3" sampleState).target_zone = "3" ∧
      ∀ p ∈ (select_zone "3" sampleState).zone_buttons, p.2 = (p.1 == "3") :=
  spec_c6_zone_selection.2 "3" sampleState (by decide)

/-- Claim C7: settings are persisted only after the helper exits with status
zero; on a nonzero exit status, on `pkexec` missing, or on timeout, the
on-disk settings file is unchanged by the `apply_settings` invocation. -/
theorem spec_c7_save_only_on_success (s : GuiState) (out err : String) :
    (∀ code : Int, code ≠ 0 →
      (apply_settings (ProcResult.completed code out err) s).state.config_file =
        s.config_file) ∧
    ((apply_settings ProcResult.pkexecNotFound s).state.config_file =
      s.config_file) ∧
    ((apply_settings ProcResult.timeout s).state.config_file = s.config_file) ∧
    (s.current_color.valid = true →
      (apply_settings (ProcResult.completed 0 out err) s).state.config_file =
        some ⟨[("Settings",
          [("last_color_hex", s.current_color.name),
           ("last_target_zone", s.target_zone)])]⟩) := by
  refine ⟨fun code hcode => ?_, ?_, ?_, fun hv => ?_⟩
  · by_cases hv : s.current_color.valid = true
    · simp only [apply_settings, hv, Bool.not_true, Bool.false_eq_true, if_false]
    · simp [apply_settings, Bool.eq_false_iff.mpr hv]
  · by_cases hv : s.current_color.valid = true
    · simp only [apply_settings, hv, Bool.not_true, Bool.false_eq_true, if_false]
    · simp [apply_settings, Bool.eq_false_iff.mpr hv]
  · by_cases hv : s.current_color.valid = true
    · simp only [apply_settings, hv, Bool.not_true, Bool.false_eq_true, if_false]
    · simp [apply_settings, Bool.eq_false_iff.mpr hv]
  · simp [apply_settings, hv, save_settings]

/-- Witness for C7: with a valid red color, a failing helper (exit 1) leaves
the settings file absent, and a successful helper writes it. -/
theorem spec_c7_save_only_on_success_witness :
    (1 : Int) ≠ 0 ∧
      (apply_settings (ProcResult.completed 1 "" "") sampleState).state.config_file =
        none ∧
      sampleState.current_color.valid = true ∧
      (apply_settings (ProcResult.completed 0 "" "") sampleState).state.config_file =
        some ⟨[("Settings",
          [("last_color_hex", "#ff0000"), ("last_target_zone", "all")])]⟩ := by
  refine ⟨by decide, ?_, by decide, ?_⟩
  · exact ((spec_c7_save_only_on_success sampleState "" "").1 1 (by decide)).trans rfl
  · exact ((spec_c7_save_only_on_success sampleState "" "").2.2.2 (by decide)).trans
      (by decide)


/-- The sysfs query always installs a valid color (the parsed one or white). -/
theorem query_valid (sysfs : Option String) (s : GuiState) :
    (query_initial_color_from_sysfs sysfs s).current_color.valid = true := by
  rw [query_initial_color_from_sysfs.eq_def]
  cases sysfs with
  | none => simp [fromString_white]
  | some raw =>
    dsimp only
    split
    next h =>
      split
      next hval => simpa using hval
      next => simp [fromString_white]
    next => simp [fromString_white]

/-- `load_settings` keeps the current color valid. -/
theorem load_valid (sysfs : Option String) (s : GuiState)
    (hv : s.current_color.valid = true) :
    (load_settings sysfs s).current_color.valid = true := by
  rw [load_settings]
  split
  next => exact query_valid _ _
  next config heq =>
    split
    next => exact query_valid _ _
    next settings hsec =>
      dsimp only
      cases hg : config.get "Settings" "last_color_hex" with
      | none =>
        simp only [hg]
        exact query_valid _ _
      | some hexstr =>
        simp only [hg]
        by_cases h1 : hexstr = ""
        · simp only [h1, ne_eq, not_true_eq_false, if_false]
          exact query_valid _ _
        · by_cases h2 : (QColor.fromString hexstr).valid = true
          · simp [h1, h2]
          · simp only [h1, h2, ne_eq, not_false_eq_true, if_true, if_false]
            exact query_valid _ _

/-- `update_status_label` leaves the current color untouched. -/
theorem update_status_label_color (s : GuiState) :
    (update_status_label s).current_color = s.current_color := rfl

/-- `update_ui_from_loaded_settings` leaves the current color untouched. -/
theorem update_ui_color (s : GuiState) :
    (update_ui_from_loaded_settings s).current_color = s.current_color := by
  rw [update_ui_from_loaded_settings]
  split
  next => rfl
  next =>
    split
    next => rfl
    next => rfl

/-- `init_ui` leaves the current color untouched. -/
theorem init_ui_color (s : GuiState) :
    (init_ui s).current_color = s.current_color := rfl

/-- `apply_settings` never changes the current color. -/
theorem apply_settings_color (env : ProcResult) (s : GuiState) :
    (apply_settings env s).state.current_color = s.current_color := by
  by_cases hv : s.current_color.valid = true
  · simp only [apply_settings, hv, Bool.not_true, Bool.false_eq_true, if_false]
    cases env with
    | completed code out err => split <;> simp [save_settings]
    | pkexecNotFound => rfl
    | timeout => rfl
  · simp [apply_settings, Bool.eq_false_iff.mpr hv]

/-- Claim C8: the current color is valid after construction and after every
operation; an invalid candidate color is never installed (`set_current_color`
leaves the state unchanged), and `apply_settings` with an invalid current
color runs no subprocess and only shows a warning. -/
theorem spec_c8_color_validity :
    (∀ cfg sysfs, (initState cfg sysfs).current_color.valid = true) ∧
    (∀ sysfs s, s.current_color.valid = true →
      (load_settings sysfs s).current_color.valid = true) ∧
    (∀ sysfs s,
      (query_initial_color_from_sysfs sysfs s).current_color.valid = true) ∧
    (∀ c s, s.current_color.valid = true →
      (set_current_color c s).current_color.valid = true) ∧
    (∀ c s, c.valid = false → set_current_color c s = s) ∧
    (∀ c s, s.current_color.valid = true →
      (show_color_dialog c s).current_color.valid = true) ∧
    (∀ env s, s.current_color.valid = true →
      (apply_settings env s).state.current_color.valid = true) ∧
    (∀ env s, s.current_color.valid = false →
      (apply_settings env s).commands = [] ∧
        (apply_settings env s).dialogs = [⟨DialogKind.warning, "Invalid Color",
          "Cannot apply an invalid color. Please choose a valid color first."⟩]) := by
  have hset : ∀ c s, s.current_color.valid = true →
      (set_current_color c s).current_color.valid = true := by
    intro c s hv
    by_cases hc : c.valid = true
    · simp [set_current_color, hc, update_status_label]
    · simp [set_current_color, Bool.eq_false_iff.mpr hc, hv]
  refine ⟨?_, load_valid, query_valid, hset, ?_, ?_, ?_, ?_⟩
  · intro cfg sysfs
    rw [initState, update_ui_color, init_ui_color]
    apply load_valid
    rfl
  · intro c s hc
    simp [set_current_color, hc]
  · intro c s hv
    by_cases hc : c.valid = true
    · simp only [show_color_dialog, hc, if_true]
      exact hset c s hv
    · simp [show_color_dialog, Bool.eq_false_iff.mpr hc, hv]
  · intro env s hv
    rw [apply_settings_color]
    exact hv
  · intro env s hv
    simp [apply_settings, hv]

/-- Witness for C8: the invariant holds on a freshly constructed state, and a
state with an invalid color refuses to run the helper. -/
theorem spec_c8_color_validity_witness :
    (initState none none).current_color.valid = true ∧
      (apply_settings ProcResult.timeout
        { sampleState with current_color := QColor.invalid }).commands = [] := by
  refine ⟨spec_c8_color_validity.1 none none, ?_⟩
  exact (spec_c8_color_validity.2.2.2.2.2.2.2 ProcResult.timeout
    { sampleState with current_color := QColor.invalid } (by decide)).1

/-- `update_status_label` leaves the target zone untouched. -/
theorem update_status_label_zone (s : GuiState) :
    (update_status_label s).target_zone = s.target_zone := rfl

/-- `update_status_label` leaves the zone buttons untouched. -/
theorem update_status_label_buttons (s : GuiState) :
    (update_status_label s).zone_buttons = s.zone_buttons := rfl

/-- Claim C9: after initialization the target zone is one of
`2, 1, 0, 3, all`; `update_ui_from_loaded_settings` resets any other loaded
zone to `"all"` and checks the All Zones button; and `select_zone`, invoked
with one of the five button zone ids, keeps the invariant. -/
theorem spec_c9_zone_invariant :
    (∀ cfg sysfs,
      (initState cfg sysfs).target_zone ∈ button_definitions.map (fun bd => bd.2.1)) ∧
    (∀ s, s.zone_buttons.map Prod.fst = button_definitions.map (fun bd => bd.2.1) →
      ((update_ui_from_loaded_settings s).target_zone ∈
          button_definitions.map (fun bd => bd.2.1) ∧
        (s.target_zone ∉ button_definitions.map (fun bd => bd.2.1) →
          (update_ui_from_loaded_settings s).target_zone = "all" ∧
            ∀ p ∈ (update_ui_from_loaded_settings s).zone_buttons,
              p.1 = "all" → p.2 = true))) ∧
    (∀ zone_id s, zone_id ∈ button_definitions.map (fun bd => bd.2.1) →
      (select_zone zone_id s).target_zone ∈ button_definitions.map (fun bd => bd.2.1)) := by
  have hall : "all" ∈ button_definitions.map (fun bd => bd.2.1) := by decide
  have hupd : ∀ s, s.zone_buttons.map Prod.fst =
      button_definitions.map (fun bd => bd.2.1) →
      ((update_ui_from_loaded_settings s).target_zone ∈
          button_definitions.map (fun bd => bd.2.1) ∧
        (s.target_zone ∉ button_definitions.map (fun bd => bd.2.1) →
          (update_ui_from_loaded_settings s).target_zone = "all" ∧
            ∀ p ∈ (update_ui_from_loaded_settings s).zone_buttons,
              p.1 = "all" → p.2 = true)) := by
    intro s hmap
    have hanyall : s.zone_buttons.any (fun p => p.1 == "all") = true := by
      rw [List.any_eq_true]
      rw [← hmap] at hall
      obtain ⟨p, hp, hp1⟩ := List.mem_map.mp hall
      exact ⟨p, hp, by simp [hp1]⟩
    rw [update_ui_from_loaded_settings]
    by_cases h1 : s.zone_buttons.any (fun p => p.1 == s.target_zone) = true
    · have hmem : s.target_zone ∈ button_definitions.map (fun bd => bd.2.1) := by
        obtain ⟨p, hp, hp1⟩ := List.any_eq_true.mp h1
        rw [← hmap]
        exact List.mem_map.mpr ⟨p, hp, by simpa using hp1⟩
      simp only [h1, if_true, update_status_label_zone, update_status_label_buttons]
      exact ⟨hmem, fun hno => absurd hmem hno⟩
    · simp only [Bool.eq_false_iff.mpr h1, Bool.false_eq_true, if_false, hanyall,
        if_true, update_status_label_zone, update_status_label_buttons]
      refine ⟨by trivial, fun _ => ⟨by trivial, fun p hp hp1 => ?_⟩⟩
      simp only [setChecked] at hp
      obtain ⟨q, hq, hqe⟩ := List.mem_map.mp hp
      by_cases hq1 : q.1 == "all"
      · rw [if_pos hq1] at hqe
        rw [← hqe]
      · rw [if_neg hq1] at hqe
        subst hqe
        exact absurd (by simp [hp1]) hq1
  refine ⟨?_, hupd, ?_⟩
  · intro cfg sysfs
    rw [initState]
    refine (hupd _ ?_).1
    simp [init_ui, List.map_map]
  · intro zone_id s hz
    rw [select_zone, update_status_label_zone]
    exact hz

/-- Witness for C9: a state whose loaded zone is the junk string `"9"` is
reset to `"all"` with the All Zones button checked, and construction from an
empty environment lands on a legal zone. -/
theorem spec_c9_zone_invariant_witness :
    (initState none none).target_zone ∈ button_definitions.map (fun bd => bd.2.1) ∧
      (update_ui_from_loaded_settings
          { sampleState with target_zone := "9" }).target_zone = "all" := by
  refine ⟨spec_c9_zone_invariant.1 none none, ?_⟩
  exact ((spec_c9_zone_invariant.2.1 { sampleState with target_zone := "9" }
    (by decide)).2 (by decide)).1
